import Mathlib

/-!
Verification of the Microsoft Bot Framework channel connector
(`rasa/core/channels/botframework.py`).

The Python source is embedded shallowly:
* Python dictionaries carrying JSON data become association lists
  (`List (String × Json)`) with lookup and `dict.update` semantics;
* `datetime` values become integer timestamps (`Int`), `timedelta(seconds=n)`
  becomes integer addition;
* network I/O is made explicit: functions take the responses the environment
  would produce as arguments and return the HTTP requests they would issue,
  so "performs zero network calls" is "the returned request list is empty";
* fallible Python code (subscripting, `raise`) returns `Except`.
-/

set_option autoImplicit false

namespace RasaBotframework

/-- JSON-like values as passed around by the connector (Python objects that
came out of `request.json` or are fed to `json.dumps`). -/
inductive Json where
  | null
  | bool (b : Bool)
  | num (n : Int)
  | str (s : String)
  | arr (elems : List Json)
  | obj (fields : List (String × Json))

/-- Python `d[k]`-style lookup on an association list (first binding wins,
as in a Python dict, which has at most one binding per key). -/
def dictGet {α : Type} (d : List (String × α)) (k : String) : Option α :=
  match d with
  | [] => none
  | kv :: rest => if k = kv.1 then some kv.2 else dictGet rest k

/-- Python `base.update(upd)` on association lists: keys already in `base`
keep their position but take the value from `upd` when present; keys only in
`upd` are appended in `upd`'s order. -/
def dictUpdate {α : Type} (base upd : List (String × α)) : List (String × α) :=
  base.map (fun kv =>
    match dictGet upd kv.1 with
    | some v => (kv.1, v)
    | none => kv)
  ++ upd.filter (fun kv => (dictGet base kv.1).isNone)

theorem dictGet_map_keep_keys {α : Type} (base upd : List (String × α)) (k : String) :
    dictGet (base.map (fun kv =>
      match dictGet upd kv.1 with
      | some v => (kv.1, v)
      | none => kv)) k
    = match dictGet base k with
      | some v => some ((dictGet upd k).getD v)
      | none => none := by
  induction base with
  | nil => rfl
  | cons kv rest ih =>
    obtain ⟨k1, v1⟩ := kv
    by_cases hk : k = k1
    · subst hk
      cases h : dictGet upd k <;>
        simp [dictGet, h, List.map]
    · cases hu : dictGet upd k1 <;>
        simp [dictGet, hk, hu, ih]

theorem dictGet_filter_new {α : Type} (base upd : List (String × α)) (k : String)
    (hbase : dictGet base k = none) :
    dictGet (upd.filter (fun kv => (dictGet base kv.1).isNone)) k = dictGet upd k := by
  induction upd with
  | nil => rfl
  | cons kv rest ih =>
    obtain ⟨k1, v1⟩ := kv
    by_cases hk : k = k1
    · subst hk
      simp [List.filter, hbase, dictGet]
    · by_cases hkeep : (dictGet base k1).isNone <;>
        simp [List.filter, hkeep, dictGet, hk, ih]

theorem dictGet_append {α : Type} (l1 l2 : List (String × α)) (k : String) :
    dictGet (l1 ++ l2) k
    = match dictGet l1 k with
      | some v => some v
      | none => dictGet l2 k := by
  induction l1 with
  | nil => rfl
  | cons kv rest ih =>
    by_cases hk : k = kv.1 <;> simp [dictGet, hk, ih]

/-- First-some choice on options: `firstSome x y` is `x` when `x` carries a
value and `y` otherwise. -/
def firstSome {α : Type} (x y : Option α) : Option α :=
  match x with
  | some v => some v
  | none => y

/-- The characteristic property of `dict.update`: a lookup in the merged dict
prefers the updating dict and falls back to the base dict. -/
theorem dictGet_dictUpdate {α : Type} (base upd : List (String × α)) (k : String) :
    dictGet (dictUpdate base upd) k
    = firstSome (dictGet upd k) (dictGet base k) := by
  unfold dictUpdate
  rw [dictGet_append, dictGet_map_keep_keys]
  cases hb : dictGet base k with
  | some v =>
    cases hu : dictGet upd k <;> simp [hu, firstSome]
  | none =>
    rw [dictGet_filter_new base upd k hb]
    cases hu : dictGet upd k <;> simp [firstSome]

/-- Python `text.split(sep)` for a non-empty separator, on character lists:
scan left to right, split at each non-overlapping occurrence of `sep`,
keeping empty segments (Python keeps them).  The `fuel` argument only makes
the recursion structural; it is always at least the length of the scanned
list, so the `fuel = 0` branch is never reached from `pySplit`. -/
def pySplitAux (sep : List Char) : Nat → List Char → List Char → List (List Char)
  | _, [], acc => [acc]
  | 0, rest, acc => [acc ++ rest]
  | fuel + 1, c :: rest, acc =>
    if sep.isPrefixOf (c :: rest) then
      acc :: pySplitAux sep fuel (List.drop sep.length (c :: rest)) []
    else
      pySplitAux sep fuel rest (acc ++ [c])

/-- Python `s.split(sep)` (non-empty `sep`). -/
def pySplit (sep s : String) : List String :=
  (pySplitAux sep.toList s.toList.length s.toList []).map (fun cs => String.mk cs)

example : pySplit "\n\n" "A\n\nB\n\nC" = ["A", "B", "C"] := by decide
example : pySplit "\n\n" "A\n\n\n\nB" = ["A", "", "B"] := by decide
example : pySplit "\n\n" "single" = ["single"] := by decide
example : pySplit "\n\n" "" = [""] := by decide
example : pySplit "\n\n" "A\n\n" = ["A", ""] := by decide

/-! ## The token cache (`BotFramework.token_expiration_date` / `.headers`) -/

/-- The class-level mutable state of `BotFramework`: the cached token's
expiration date and the cached headers dict (`None` before the first
successful fetch). -/
structure TokenState where
  token_expiration_date : Int
  headers : Option (List (String × String))

/-- The form-encoded POST which `_get_headers` makes to the OAuth2 token
endpoint (the `payload` dict of the source, plus the request target). -/
structure TokenRequest where
  uri : String
  client_id : String
  client_secret : String
  grant_type : String
  scope : String

/-- The token endpoint's answer: `ok` is `token_response.ok`;
`access_token` and `expires_in` are the fields read from the JSON body
(the source applies `int(...)` to `expires_in`, so it is an integer). -/
structure TokenResponse where
  ok : Bool
  access_token : String
  expires_in : Int

def MICROSOFT_OAUTH2_URL : String := "https://login.microsoftonline.com"

def MICROSOFT_OAUTH2_PATH : String := "botframework.com/oauth2/v2.0/token"

/-- What one call of `_get_headers` produces: the returned headers (`none`
when the function falls off the end after a failed fetch), the token state
afterwards, and the token-endpoint calls it issued. -/
structure HeadersResult where
  headers : Option (List (String × String))
  state : TokenState
  tokenCalls : List TokenRequest

/-- Embedding of `BotFramework._get_headers`.  `now1` is the `datetime.datetime.now()`
value read for the expiry comparison (line 93); `now2` is the value read
after the token response when the new expiration date is stored (line 110).
`resp` is the token endpoint's answer, consumed only if a request is made. -/
def get_headers (st : TokenState) (app_id app_password : String)
    (now1 now2 : Int) (resp : TokenResponse) : HeadersResult :=
  if st.token_expiration_date < now1 then
    let req : TokenRequest :=
      { uri := MICROSOFT_OAUTH2_URL ++ "/" ++ MICROSOFT_OAUTH2_PATH
        client_id := app_id
        client_secret := app_password
        grant_type := "client_credentials"
        scope := "https://api.botframework.com/.default" }
    if resp.ok then
      let newHeaders := [("content-type", "application/json"),
                         ("Authorization", "Bearer " ++ resp.access_token)]
      { headers := some newHeaders
        state := { token_expiration_date := now2 + resp.expires_in
                   headers := some newHeaders }
        tokenCalls := [req] }
    else
      -- `logger.error('Could not get BotFramework token')`, then the
      -- function falls off the end: `None` is returned, the cache untouched.
      { headers := none, state := st, tokenCalls := [req] }
  else
    { headers := st.headers, state := st, tokenCalls := [] }

/-! ## The output channel (`BotFramework`) -/

/-- A `BotFramework` output channel instance.  The source stores the whole
`conversation` dict and reads `self.conversation['id']` when building the
send URL; the embedding keeps that entry (stringified), the only part of the
dict the class ever uses.  `bot_id` is the opaque platform-supplied
`recipient` object of the inbound event. -/
structure BotFramework where
  app_id : String
  app_password : String
  conversation_id : String
  global_uri : String
  bot_id : Json

/-- Embedding of `BotFramework.__init__`: stores the credentials and conversation data and
sets `global_uri` to `service_url` with `"v3/"` appended directly (the
source formats with `"\x7b\x7dv3/"`, inserting no separator). -/
def BotFramework.init (app_id app_password conversation_id : String)
    (bot_id : Json) (service_url : String) : BotFramework :=
  { app_id := app_id
    app_password := app_password
    conversation_id := conversation_id
    global_uri := service_url ++ "v3/"
    bot_id := bot_id }

/-- One outbound activity POST: target URL, the headers handed over by
`_get_headers` (possibly `None`), and the JSON body (`json.dumps(data)`). -/
structure SendRequest where
  uri : String
  headers : Option (List (String × String))
  body : List (String × Json)

/-- What one `send` call produces: the token state afterwards, the activity
POST it issued, the token-endpoint calls made on the way, and the error log
lines written. -/
structure SendResult where
  state : TokenState
  request : SendRequest
  tokenCalls : List TokenRequest
  logs : List String

/-- The base envelope `data` built by `BotFramework.send` before
`data.update(message_data)`. -/
def sendEnvelope (recipient_id : String) (bot_id : Json) : List (String × Json) :=
  [("type", Json.str "message"),
   ("recipient", Json.obj [("id", Json.str recipient_id)]),
   ("from", bot_id),
   ("channelData", Json.obj [("notification", Json.obj [("alert", Json.str "true")])]),
   ("text", Json.str "")]

/-- Embedding of `BotFramework.send`: builds the activity URL from `global_uri` and the
conversation id, merges the envelope with `message_data`
(`data.update(message_data)`), obtains headers via `_get_headers`, POSTs,
and logs — without raising — when the response is not ok.  `sendOk` is the
`send_response.ok` the environment answers with; it influences only the
log output. -/
def send (bf : BotFramework) (st : TokenState) (now1 now2 : Int)
    (tokResp : TokenResponse) (sendOk : Bool)
    (recipient_id : String) (message_data : List (String × Json)) : SendResult :=
  let post_message_uri :=
    bf.global_uri ++ "conversations/" ++ bf.conversation_id ++ "/activities"
  let data := dictUpdate (sendEnvelope recipient_id bf.bot_id) message_data
  let hr := get_headers st bf.app_id bf.app_password now1 now2 tokResp
  { state := hr.state
    request := { uri := post_message_uri, headers := hr.headers, body := data }
    tokenCalls := hr.tokenCalls
    logs := if sendOk then []
            else ["Error trying to send botframework messge."] }

/-- The environment of a multi-fragment send: for the fragment at index `i`,
the two clock readings, the token endpoint's answer (used only if a refresh
happens) and the activity endpoint's `response.ok`. -/
structure SendEnv where
  now1 : Nat → Int
  now2 : Nat → Int
  tokResp : Nat → TokenResponse
  sendOk : Nat → Bool

/-- The accumulated effect of a sequence of `send` calls. -/
structure MultiSendResult where
  state : TokenState
  requests : List SendRequest
  tokenCalls : List TokenRequest
  logs : List String

/-- The loop body of `send_text_message`: one `send` per fragment, in source
order, threading the token state. -/
def sendParts (bf : BotFramework) (env : SendEnv) (recipient_id : String) :
    List String → Nat → TokenState → MultiSendResult
  | [], _, st => { state := st, requests := [], tokenCalls := [], logs := [] }
  | p :: rest, i, st =>
    let r := send bf st (env.now1 i) (env.now2 i) (env.tokResp i) (env.sendOk i)
      recipient_id [("text", Json.str p)]
    let tail := sendParts bf env recipient_id rest (i + 1) r.state
    { state := tail.state
      requests := r.request :: tail.requests
      tokenCalls := r.tokenCalls ++ tail.tokenCalls
      logs := r.logs ++ tail.logs }

/-- Embedding of `BotFramework.send_text_message`: split the message on `"\n\n"` (Python
`str.split`, empty segments kept) and `send` each part as `("text", part)`,
sequentially and in order. -/
def send_text_message (bf : BotFramework) (env : SendEnv) (st : TokenState)
    (recipient_id message : String) : MultiSendResult :=
  sendParts bf env recipient_id (pySplit "\n\n" message) 0 st

/-- Embedding of `BotFramework.send_custom_message`: `await self.send(recipient_id,
elements[0])`.  On an empty list, `elements[0]` raises `IndexError` before
`send` is entered, so no request of any kind is issued. -/
def send_custom_message (bf : BotFramework) (st : TokenState) (now1 now2 : Int)
    (tokResp : TokenResponse) (sendOk : Bool) (recipient_id : String)
    (elements : List (List (String × Json))) : Except String SendResult :=
  match elements with
  | [] => Except.error "IndexError: list index out of range"
  | e :: _ => Except.ok (send bf st now1 now2 tokResp sendOk recipient_id e)

/-- The activity POSTs issued by a `send_custom_message` call: none when the
call raised before reaching `send`. -/
def customRequests (r : Except String SendResult) : List SendRequest :=
  match r with
  | Except.error _ => []
  | Except.ok res => [res.request]

/-- The token-endpoint POSTs issued by a `send_custom_message` call. -/
def customTokenCalls (r : Except String SendResult) : List TokenRequest :=
  match r with
  | Except.error _ => []
  | Except.ok res => res.tokenCalls

/-! ## The webhook route (`BotFrameworkInput.blueprint`) -/

/-- Python `obj[key]` on a parsed JSON value: a lookup on a dict, a
`KeyError` when the key is absent, a `TypeError` on anything that is not a
dict. -/
def getItem (j : Json) (k : String) : Except String Json :=
  match j with
  | Json.obj fields =>
    match dictGet fields k with
    | some v => Except.ok v
    | none => Except.error ("KeyError: " ++ k)
  | _ => Except.error "TypeError: value is not subscriptable"

/-- Python `str(...)` as applied by string formatting to values taken from
the parsed event (`serviceUrl`, `conversation['id']`).  Only the string case
is ever reached by well-formed events; the rendering of the other shapes is
irrelevant to every claim and abbreviated here. -/
def pyStr : Json → String
  | Json.str s => s
  | Json.null => "None"
  | Json.bool true => "True"
  | Json.bool false => "False"
  | Json.num n => toString n
  | Json.arr _ => "<list>"
  | Json.obj _ => "<dict>"

/-- Embedding of `postdata["type"] == "message"`: Python equality between the parsed
value and the string literal — `False`, never an exception, when the value
is not a string. -/
def isMessageType : Json → Bool
  | Json.str s => s = "message"
  | _ => false

/-- Modelled from the spec: `UserMessage` from `rasa.core.channels.channel`
(not under src/) is the spec's InternalMessage — text, reply capability,
sender id, channel name (spec section 3); a plain record whose construction
performs no validation and cannot fail. -/
structure UserMessage where
  text : Json
  output_channel : BotFramework
  sender_id : Json
  input_channel : String

/-- The two non-error outcomes of the webhook's `try` block. -/
inductive WebhookOutcome where
  | dispatched
  | skippedNonMessage

/-- The shapes of an inbound POST body which sanic's `request.json`
distinguishes. -/
inductive ReqBody where
  | jsonBody (postdata : Json)
  | emptyBody
  | malformedBody

/-- sanic `request.json` (`sanic>=18.12,<20.13` per setup.py): a well-formed
JSON body parses, an empty body yields `None`, and a malformed non-empty
body raises `InvalidUsage("Failed when parsing body as json")`. -/
def requestJson : ReqBody → Except String (Option Json)
  | ReqBody.jsonBody j => Except.ok (some j)
  | ReqBody.emptyBody => Except.ok none
  | ReqBody.malformedBody => Except.error "Failed when parsing body as json"

/-- The `try` block of the webhook route: check `postdata["type"]`, and for
a message event read `conversation`, `recipient` and `serviceUrl` (in the
source's evaluation order), build the output channel, read `text` and
`from.id`, build the `UserMessage` and await `on_new_message`.  The
`conversation['id']` entry is stringified here rather than at send time;
a `KeyError` for it lands inside the same `try` either way.  `postdata`
is `none` when the request body was empty (`request.json` gave `None`),
in which case the subscript raises `TypeError`. -/
def handleMessage (app_id app_password : String)
    (on_new_message : UserMessage → Except String Unit)
    (postdata : Option Json) : Except String WebhookOutcome :=
  match postdata with
  | none => Except.error "TypeError: NoneType is not subscriptable"
  | some j => do
    let ty ← getItem j "type"
    if isMessageType ty then
      let conversation ← getItem j "conversation"
      let recipient ← getItem j "recipient"
      let serviceUrl ← getItem j "serviceUrl"
      let conversationId ← getItem conversation "id"
      let out_channel := BotFramework.init app_id app_password
        (pyStr conversationId) recipient (pyStr serviceUrl)
      let text ← getItem j "text"
      let sender ← getItem j "from"
      let senderId ← getItem sender "id"
      let user_msg : UserMessage :=
        { text := text
          output_channel := out_channel
          sender_id := senderId
          input_channel := "botframework" }
      let _ ← on_new_message user_msg
      pure WebhookOutcome.dispatched
    else
      -- `logger.info("Not received message type")`
      pure WebhookOutcome.skippedNonMessage

/-- An HTTP response of the route. -/
structure HttpResponse where
  status : Nat
  body : String
deriving DecidableEq

/-- The `POST /webhook` route.  `postdata = request.json` stands before the
`try` block, so a malformed body raises `InvalidUsage` out of the route and
sanic answers it with status 400; every exception after parsing is caught by
the `except Exception` clause and the route answers `200 "success"`.  The
second component is the internal outcome of the `try` block (not part of
the HTTP answer), exposed so that dispatching is observable. -/
def webhook (app_id app_password : String)
    (on_new_message : UserMessage → Except String Unit)
    (body : ReqBody) : HttpResponse × Except String WebhookOutcome :=
  match requestJson body with
  | Except.error e => ({ status := 400, body := e }, Except.error e)
  | Except.ok postdata =>
    let outcome := handleMessage app_id app_password on_new_message postdata
    ({ status := 200, body := "success" }, outcome)

/-! ## The input channel factory (`BotFrameworkInput`) -/

/-- A `BotFrameworkInput` instance: `credentials.get(...)` yields `None`
for absent keys, hence the optional fields. -/
structure BotFrameworkInput where
  app_id : Option String
  app_password : Option String

/-- Modelled from the spec: `InputChannel.raise_missing_credentials_exception`
(`rasa.core.channels.channel`, not under src/) raises an exception reporting
that the channel's credentials are missing, as its name states. -/
def missingCredentialsError : String :=
  "To use the botframework input channel, you need to pass credentials"

/-- Embedding of `BotFrameworkInput.from_credentials`: `if not credentials:` raises the
missing-credentials exception — Python falsy covers both `None` and the
empty dict — and otherwise builds the instance from `credentials.get`. -/
def from_credentials (credentials : Option (List (String × String))) :
    Except String BotFrameworkInput :=
  match credentials with
  | none => Except.error missingCredentialsError
  | some m =>
    if m.isEmpty then Except.error missingCredentialsError
    else Except.ok { app_id := dictGet m "app_id"
                     app_password := dictGet m "app_password" }

/-! ## Concrete fixtures used by witnesses and counterexamples -/

/-- A state with an expired (or never fetched) token. -/
def exState : TokenState := { token_expiration_date := 0, headers := none }

/-- A state holding a cached token that expires at time 100. -/
def exFreshState : TokenState :=
  { token_expiration_date := 100
    headers := some [("content-type", "application/json"),
                     ("Authorization", "Bearer cached")] }

/-- A successful token-endpoint answer. -/
def exTokOk : TokenResponse :=
  { ok := true, access_token := "tok", expires_in := 3600 }

/-- A failed (HTTP 401) token-endpoint answer. -/
def exTokFail : TokenResponse :=
  { ok := false, access_token := "", expires_in := 0 }

/-- A connector bound to a concrete conversation. -/
def exBF : BotFramework :=
  BotFramework.init "appid" "apppw" "conv1"
    (Json.obj [("id", Json.str "bot")]) "https://smba.example/apis/"

/-- A benign environment: constant clock, successful token fetches,
successful sends. -/
def exEnv : SendEnv :=
  { now1 := fun _ => 1
    now2 := fun _ => 1
    tokResp := fun _ => exTokOk
    sendOk := fun _ => true }

/-! ## C5: token reuse -/

/-- C5: if the cached token's expiration date is in the future at call time,
`_get_headers` performs zero network calls and returns the cached headers,
leaving the cache unchanged. -/
theorem bf_C5 (st : TokenState) (app_id app_password : String)
    (now1 now2 : Int) (resp : TokenResponse)
    (hfuture : now1 < st.token_expiration_date) :
    get_headers st app_id app_password now1 now2 resp
      = { headers := st.headers, state := st, tokenCalls := [] } := by
  unfold get_headers
  rw [if_neg (by omega)]

/-- Witness for C5 at a concrete cached state. -/
theorem bf_C5_witness :
    (0 : Int) < exFreshState.token_expiration_date
    ∧ get_headers exFreshState "appid" "apppw" 0 7 exTokOk
      = { headers := exFreshState.headers, state := exFreshState, tokenCalls := [] } :=
  ⟨by decide, bf_C5 exFreshState "appid" "apppw" 0 7 exTokOk (by decide)⟩

/-! ## C6: token refresh -/

/-- C6: with an expired or absent token, `_get_headers` performs exactly one
POST to the OAuth2 token endpoint, with the client-credentials payload; on a
successful answer it stores headers carrying the new bearer token, with an
expiration date equal to the `datetime.now()` reading made during the call
(after the token response, `now2`) plus the answer's `expires_in`. -/
theorem bf_C6 (st : TokenState) (app_id app_password : String)
    (now1 now2 : Int) (resp : TokenResponse)
    (hexpired : st.token_expiration_date < now1) :
    (get_headers st app_id app_password now1 now2 resp).tokenCalls
      = [{ uri := MICROSOFT_OAUTH2_URL ++ "/" ++ MICROSOFT_OAUTH2_PATH
           client_id := app_id
           client_secret := app_password
           grant_type := "client_credentials"
           scope := "https://api.botframework.com/.default" }]
    ∧ (resp.ok = true →
        (get_headers st app_id app_password now1 now2 resp).state.token_expiration_date
          = now2 + resp.expires_in
        ∧ (get_headers st app_id app_password now1 now2 resp).state.headers
          = some [("content-type", "application/json"),
                  ("Authorization", "Bearer " ++ resp.access_token)]
        ∧ (get_headers st app_id app_password now1 now2 resp).headers
          = (get_headers st app_id app_password now1 now2 resp).state.headers) := by
  unfold get_headers
  rw [if_pos hexpired]
  cases hok : resp.ok <;> simp [hok]

/-- Witness for C6 at a concrete expired state and successful answer. -/
theorem bf_C6_witness :
    exState.token_expiration_date < 1
    ∧ ((get_headers exState "appid" "apppw" 1 5 exTokOk).tokenCalls
        = [{ uri := MICROSOFT_OAUTH2_URL ++ "/" ++ MICROSOFT_OAUTH2_PATH
             client_id := "appid"
             client_secret := "apppw"
             grant_type := "client_credentials"
             scope := "https://api.botframework.com/.default" }]
      ∧ (exTokOk.ok = true →
          (get_headers exState "appid" "apppw" 1 5 exTokOk).state.token_expiration_date
            = 5 + exTokOk.expires_in
          ∧ (get_headers exState "appid" "apppw" 1 5 exTokOk).state.headers
            = some [("content-type", "application/json"),
                    ("Authorization", "Bearer " ++ exTokOk.access_token)]
          ∧ (get_headers exState "appid" "apppw" 1 5 exTokOk).headers
            = (get_headers exState "appid" "apppw" 1 5 exTokOk).state.headers)) :=
  ⟨by decide, bf_C6 exState "appid" "apppw" 1 5 exTokOk (by decide)⟩

/-! ## C3: empty paragraph handling -/

/-- C3 counterexample: `send_text_message` on `"A\n\n\n\nB"` does produce a
fragment whose text is the empty string — Python `str.split` keeps empty
segments, and every segment is sent.  This refutes the claim that splitting
yields only non-empty fragments. -/
theorem bf_C3_counterexample :
    some (Json.str "") ∈
      (send_text_message exBF exEnv exState "user1" "A\n\n\n\nB").requests.map
        (fun r => dictGet r.body "text") := by
  exact List.Mem.tail _ (List.Mem.head _)

/-- C3 amended: splitting on the double-newline separator keeps empty
segments and every segment — empty or not — is sent as a fragment; on
`"A\n\n\n\nB"` the fragments are exactly `A`, the empty string, `B`, in that
order, for every connector, environment and token state. -/
theorem bf_C3_amended (bf : BotFramework) (env : SendEnv) (st : TokenState)
    (recipient_id : String) :
    (send_text_message bf env st recipient_id "A\n\n\n\nB").requests.map
        (fun r => dictGet r.body "text")
      = [some (Json.str "A"), some (Json.str ""), some (Json.str "B")] := by
  rfl

/-! ## C7: paragraph splitting -/

/-- C7: `send_text_message` on `"A\n\nB\n\nC"` issues exactly three sends
carrying `A`, `B`, `C` in source order, and on `"single"` exactly one send,
for every connector, environment and token state. -/
theorem bf_C7 (bf : BotFramework) (env : SendEnv) (st : TokenState)
    (recipient_id : String) :
    (send_text_message bf env st recipient_id "A\n\nB\n\nC").requests.map
        (fun r => dictGet r.body "text")
      = [some (Json.str "A"), some (Json.str "B"), some (Json.str "C")]
    ∧ (send_text_message bf env st recipient_id "single").requests.map
        (fun r => dictGet r.body "text")
      = [some (Json.str "single")] :=
  ⟨rfl, rfl⟩

/-! ## C8: per-fragment delivery failure -/

theorem sendParts_requests_sendOk (bf : BotFramework) (env : SendEnv)
    (f : Nat → Bool) (recipient_id : String) (parts : List String) :
    ∀ (i : Nat) (st : TokenState),
    (sendParts bf { env with sendOk := f } recipient_id parts i st).requests
      = (sendParts bf env recipient_id parts i st).requests
    ∧ (sendParts bf { env with sendOk := f } recipient_id parts i st).state
      = (sendParts bf env recipient_id parts i st).state := by
  induction parts with
  | nil => intro i st; exact ⟨rfl, rfl⟩
  | cons p rest ih =>
    intro i st
    have h := ih (i + 1)
      ((send bf st (env.now1 i) (env.now2 i) (env.tokResp i) (env.sendOk i)
        recipient_id [("text", Json.str p)]).state)
    exact ⟨congrArg (fun l =>
      (send bf st (env.now1 i) (env.now2 i) (env.tokResp i) (env.sendOk i)
        recipient_id [("text", Json.str p)]).request :: l) h.1, h.2⟩

theorem sendParts_length (bf : BotFramework) (env : SendEnv)
    (recipient_id : String) (parts : List String) :
    ∀ (i : Nat) (st : TokenState),
    (sendParts bf env recipient_id parts i st).requests.length = parts.length := by
  induction parts with
  | nil => intro i st; rfl
  | cons p rest ih => intro i st; simp [sendParts, ih]

/-- C8: a non-success HTTP status on an outbound send is local to that
fragment: `send` only logs it (it is a total function: no exception reaches
the pipeline), and in a multi-fragment `send_text_message` call the activity
POSTs that are issued are identical under an arbitrary pattern of
per-fragment failure statuses — one POST per fragment, none skipped. -/
theorem bf_C8 (bf : BotFramework) (env : SendEnv) (f : Nat → Bool)
    (st : TokenState) (recipient_id message : String) :
    (send_text_message bf { env with sendOk := f } st recipient_id message).requests
      = (send_text_message bf env st recipient_id message).requests
    ∧ (send_text_message bf env st recipient_id message).requests.length
      = (pySplit "\n\n" message).length :=
  ⟨(sendParts_requests_sendOk bf env f recipient_id (pySplit "\n\n" message) 0 st).1,
   sendParts_length bf env recipient_id (pySplit "\n\n" message) 0 st⟩

/-! ## C4: the outbound envelope and URL -/

/-- C4 counterexample: the source appends `"v3/"` directly to the service
URL, inserting no separator, so for a service URL without a trailing slash
the activity POST does not go to
`service_base_url ++ "/v3/conversations/" ++ id ++ "/activities"` as the
claim states. -/
theorem bf_C4_counterexample :
    ((send (BotFramework.init "appid" "apppw" "c1" Json.null "https://example.com")
        exState 1 1 exTokOk true "user1" []).request).uri
      ≠ "https://example.com" ++ "/v3/conversations/" ++ "c1" ++ "/activities" := by
  decide

/-- C4 amended: every `send` posts to
`service_url ++ "v3/conversations/" ++ conversation_id ++ "/activities"`
(the source concatenates without inserting a separator, so the claim's URL
form holds exactly when the service base URL ends with a slash), and the
JSON body is the base envelope — `type=message`, `recipient.id`,
`from = bot identity`, the notification-alert flag, empty `text` — merged
with the fragment, fragment fields overriding. -/
theorem bf_C4_amended (app_id app_password conversation_id : String)
    (bot_id : Json) (service_url : String) (st : TokenState) (now1 now2 : Int)
    (tokResp : TokenResponse) (sendOk : Bool) (recipient_id : String)
    (fragment : List (String × Json)) :
    ((send (BotFramework.init app_id app_password conversation_id bot_id service_url)
        st now1 now2 tokResp sendOk recipient_id fragment).request).uri
      = service_url ++ "v3/conversations/" ++ conversation_id ++ "/activities"
    ∧ ∀ k : String,
        dictGet ((send (BotFramework.init app_id app_password conversation_id bot_id
            service_url) st now1 now2 tokResp sendOk recipient_id fragment).request).body k
          = firstSome (dictGet fragment k) (dictGet (sendEnvelope recipient_id bot_id) k) := by
  constructor
  · show ((service_url ++ "v3/") ++ "conversations/") ++ conversation_id ++ "/activities"
      = (service_url ++ "v3/conversations/") ++ conversation_id ++ "/activities"
    have hlit : ("v3/" : String) ++ "conversations/" = "v3/conversations/" := by decide
    rw [String.append_assoc service_url "v3/" "conversations/", hlit]
  · intro k
    simp only [send, BotFramework.init]
    exact dictGet_dictUpdate (sendEnvelope recipient_id bot_id) fragment k

/-! ## C2: auth failure during a send -/

/-- C2 counterexample: with an expired token and a failing (non-2xx) token
endpoint, `send` leaves the cache unchanged and raises nothing — but it
still issues its outbound activity POST (the `request` it produces), with
`headers = None`, i.e. without any `Authorization` header.  This refutes
"no outbound HTTP POST is issued with empty/absent authorization headers". -/
theorem bf_C2_counterexample :
    (send exBF exState 1 1 exTokFail true "user1" []).request.headers = none
    ∧ (send exBF exState 1 1 exTokFail true "user1" []).state = exState
    ∧ (send exBF exState 1 1 exTokFail true "user1" []).request.uri
      = "https://smba.example/apis/v3/conversations/conv1/activities" :=
  ⟨rfl, rfl, rfl⟩

/-- C2 amended: when the token endpoint answers non-2xx, the token cache is
left unchanged and `send` (a total function) lets no exception past the send
boundary; the outbound POST, however, is still issued — with `headers =
None`, carrying no `Authorization` header. -/
theorem bf_C2_amended (bf : BotFramework) (st : TokenState) (now1 now2 : Int)
    (resp : TokenResponse) (sendOk : Bool) (recipient_id : String)
    (message_data : List (String × Json))
    (hfail : resp.ok = false) (hexpired : st.token_expiration_date < now1) :
    (send bf st now1 now2 resp sendOk recipient_id message_data).state = st
    ∧ (send bf st now1 now2 resp sendOk recipient_id message_data).request.headers = none
    ∧ (send bf st now1 now2 resp sendOk recipient_id message_data).tokenCalls.length = 1 := by
  unfold send get_headers
  rw [if_pos hexpired, hfail]
  simp

/-- Witness for C2 amended at a concrete expired state and a 401 answer. -/
theorem bf_C2_witness :
    exTokFail.ok = false
    ∧ exState.token_expiration_date < 1
    ∧ ((send exBF exState 1 1 exTokFail true "user1" []).state = exState
      ∧ (send exBF exState 1 1 exTokFail true "user1" []).request.headers = none
      ∧ (send exBF exState 1 1 exTokFail true "user1" []).tokenCalls.length = 1) :=
  ⟨rfl, by decide,
   bf_C2_amended exBF exState 1 1 exTokFail true "user1" [] rfl (by decide)⟩

/-! ## C9: custom message pass-through -/

/-- C9: `send_custom_message` with a non-empty `elements` list performs one
`send` whose body is the first element merged over the send envelope
(element fields overriding); with an empty list it raises `IndexError`
before `send` is entered, so neither an activity POST nor a token-endpoint
POST is issued. -/
theorem bf_C9 (bf : BotFramework) (st : TokenState) (now1 now2 : Int)
    (tokResp : TokenResponse) (sendOk : Bool) (recipient_id : String)
    (e : List (String × Json)) (rest : List (List (String × Json))) :
    send_custom_message bf st now1 now2 tokResp sendOk recipient_id (e :: rest)
      = Except.ok (send bf st now1 now2 tokResp sendOk recipient_id e)
    ∧ (∀ k : String,
        dictGet (send bf st now1 now2 tokResp sendOk recipient_id e).request.body k
          = firstSome (dictGet e k) (dictGet (sendEnvelope recipient_id bf.bot_id) k))
    ∧ customRequests (send_custom_message bf st now1 now2 tokResp sendOk recipient_id []) = []
    ∧ customTokenCalls (send_custom_message bf st now1 now2 tokResp sendOk recipient_id []) = [] := by
  refine ⟨rfl, ?_, rfl, rfl⟩
  intro k
  simp only [send]
  exact dictGet_dictUpdate (sendEnvelope recipient_id bf.bot_id) e k

/-! ## C1: webhook acknowledgment -/

/-- C1 counterexample: a POST whose body is malformed (non-empty, not JSON)
raises `InvalidUsage` at `postdata = request.json`, which stands before the
route's `try` block; the route therefore does not answer 200 `"success"`. -/
theorem bf_C1_counterexample :
    (webhook "appid" "apppw" (fun _ => Except.ok ()) ReqBody.malformedBody).1
      ≠ { status := 200, body := "success" } := by
  decide

/-- C1 amended: for every inbound POST whose body is valid JSON (well-formed
message events, events with missing fields, non-message types) or empty, any
exception raised during dispatch — including a failing pipeline callback —
is caught and the route answers HTTP 200 with body `"success"`; a malformed
non-JSON body, however, raises during parsing, outside the `try` block, and
is not answered with 200 `"success"`. -/
theorem bf_C1_amended (app_id app_password : String)
    (on_new_message : UserMessage → Except String Unit) (postdata : Json) :
    (webhook app_id app_password on_new_message (ReqBody.jsonBody postdata)).1
      = { status := 200, body := "success" }
    ∧ (webhook app_id app_password on_new_message ReqBody.emptyBody).1
      = { status := 200, body := "success" } :=
  ⟨rfl, rfl⟩

/-! ## C10: the input channel factory -/

/-- C10: `from_credentials` raises the missing-credentials exception exactly
on falsy credentials (`None` or the empty dict); every non-empty credentials
dict yields an instance, with `app_id` and `app_password` read by
`credentials.get`, `None` standing in for absent keys. -/
theorem bf_C10 (p : String × String) (m : List (String × String)) :
    from_credentials none = Except.error missingCredentialsError
    ∧ from_credentials (some []) = Except.error missingCredentialsError
    ∧ from_credentials (some (p :: m))
        = Except.ok { app_id := dictGet (p :: m) "app_id"
                      app_password := dictGet (p :: m) "app_password" } :=
  ⟨rfl, rfl, rfl⟩

end RasaBotframework
